import Mathlib

/-!
Shallow embedding of `src/main.go` of coelhomarcus/go-win-monitor: a tray
agent that samples CPU/RAM/GPU metrics and pushes them to a remote
collector over a websocket session, supervised by an infinite reconnect
loop.  Go float64 values are modelled as rationals, Go uint64 values as
Nat (no arithmetic here ever overflows 64 bits: the only operation is
division by 1024).  External effects (the dial, the websocket reads and
writes, the OS metric queries, the nvidia-smi subprocess) are modelled as
explicit environment records, and the session/supervisor loops as
Nat-indexed event traces.
-/

/-- JSON values, as produced/consumed by Go encoding/json.  Numbers are
modelled as rationals. -/
inductive Json where
  | null : Json
  | bool (b : Bool) : Json
  | num (q : Rat) : Json
  | str (s : String) : Json
  | arr (xs : List Json) : Json
  | obj (fields : List (String × Json)) : Json

/-- Embeds the struct `Metrics` (src/main.go:26-32): CPU and RAM are Go
float64 percentages, RAMUsedMB and RAMTotalMB are uint64, GPU is float64
with -1 as the "unavailable" sentinel. -/
structure Metrics where
  CPU : Rat
  RAM : Rat
  RAMUsedMB : Nat
  RAMTotalMB : Nat
  GPU : Rat
deriving DecidableEq, Repr

/-- Result of `mem.VirtualMemory()` when it succeeds: the fields the code
reads (src/main.go:189-194).  `used` and `total` are in bytes. -/
structure MemStat where
  usedPercent : Rat
  used : Nat
  total : Nat
deriving DecidableEq, Repr

/-- Environment of one `getNvidiaGPU` call (src/main.go:203-226):
`duration` is the wall-clock seconds the nvidia-smi subprocess runs before
`cmd.Run()` returns (an absent binary fails immediately, i.e. small
duration); `runErr` is whether `cmd.Run()` returned a non-nil error;
`parsed` is the result of `strconv.ParseFloat` on the trimmed stdout
(`none` = parse error). -/
structure GpuEnv where
  duration : Nat
  runErr : Bool
  parsed : Option Rat
deriving DecidableEq, Repr

/-- Embeds `getNvidiaGPU` (src/main.go:203-226): on a run error return
(0, false); on a parse error return (0, false); otherwise return the
parsed utilisation and true. -/
def getNvidiaGPU (g : GpuEnv) : Rat × Bool :=
  if g.runErr then (0, false)
  else
    match g.parsed with
    | none => (0, false)
    | some v => (v, true)

/-- Time model of `getNvidiaGPU`: `cmd.Run()` (src/main.go:214) starts the
command and waits for it to complete; no timeout, deadline or context is
configured anywhere in the function, so the call blocks for the
subprocess's full duration. -/
def getNvidiaGPUTime (g : GpuEnv) : Nat :=
  g.duration

/-- Environment of one `collectMetrics` call (src/main.go:181-201):
`cpuRes` is the result of `cpu.Percent(0, false)` (`none` = error, else
the returned slice), `memRes` the result of `mem.VirtualMemory()`
(`none` = error), `gpu` the environment of the `getNvidiaGPU` call. -/
structure SysEnv where
  cpuRes : Option (List Rat)
  memRes : Option MemStat
  gpu : GpuEnv
deriving DecidableEq, Repr

/-- Embeds `collectMetrics` (src/main.go:181-201): start from the zero
Metrics with GPU preset to -1, then fill CPU when `cpu.Percent` succeeded
with a non-empty slice, fill the three RAM fields when
`mem.VirtualMemory` succeeded, and overwrite GPU when `getNvidiaGPU`
reported ok. -/
def collectMetrics (env : SysEnv) : Metrics :=
  let m : Metrics := { CPU := 0, RAM := 0, RAMUsedMB := 0, RAMTotalMB := 0, GPU := -1 }
  let m : Metrics :=
    match env.cpuRes with
    | some (x :: _) => { m with CPU := x }
    | _ => m
  let m : Metrics :=
    match env.memRes with
    | some s =>
        { m with RAM := s.usedPercent
                 RAMUsedMB := s.used / 1024 / 1024
                 RAMTotalMB := s.total / 1024 / 1024 }
    | none => m
  match getNvidiaGPU env.gpu with
  | (v, true) => { m with GPU := v }
  | _ => m

/-- Time model of `collectMetrics`: `cpu.Percent(0, false)` is called with
a zero interval and returns without waiting, `mem.VirtualMemory()` is a
non-blocking sysinfo read, so the only blocking step is the nvidia-smi
subprocess wait inside `getNvidiaGPU`. -/
def collectTime (env : SysEnv) : Nat :=
  getNvidiaGPUTime env.gpu

/-- The bounded-sampling-time property claimed by the spec: some fixed
bound dominates the sampling time whatever the external command does. -/
def samplingBounded : Prop :=
  ∃ B : Nat, ∀ env : SysEnv, collectTime env ≤ B

/-- CPU field of a collected sample as a function of the `cpu.Percent`
result alone: first element of the slice on success, else the zero
value. -/
def cpuOf : Option (List Rat) → Rat
  | some (x :: _) => x
  | _ => 0

/-- RAM percentage field as a function of the `mem.VirtualMemory` result
alone. -/
def ramOf : Option MemStat → Rat
  | some s => s.usedPercent
  | none => 0

/-- RAM-used-MB field as a function of the `mem.VirtualMemory` result
alone (bytes divided twice by 1024, truncating as Go uint64 division
does). -/
def ramUsedOf : Option MemStat → Nat
  | some s => s.used / 1024 / 1024
  | none => 0

/-- RAM-total-MB field as a function of the `mem.VirtualMemory` result
alone. -/
def ramTotalOf : Option MemStat → Nat
  | some s => s.total / 1024 / 1024
  | none => 0

/-- GPU field as a function of the GPU query alone: the parsed utilisation
when the query succeeded, else the -1 sentinel. -/
def gpuOf (g : GpuEnv) : Rat :=
  match getNvidiaGPU g with
  | (v, true) => v
  | _ => -1

/-- Terminal errors a session run can return, one constructor per `return
fmt.Errorf(...)` site in `run`/`sendMetrics` (src/main.go:123-179). -/
inductive RunError where
  | dialErr : RunError
  | authSendErr : RunError
  | authRespErr : RunError
  | authParseErr : RunError
  | authFailed (status : String) : RunError
  | sendErr (cycle : Nat) : RunError
deriving DecidableEq, Repr

/-- Embeds `json.Unmarshal` of a message into a Go `map[string]string`:
an object unmarshals iff every value is a string (src/main.go:143-146). -/
def asStringPairs : List (String × Json) → Option (List (String × String))
  | [] => some []
  | (k, Json.str v) :: rest =>
      match asStringPairs rest with
      | some tail => some ((k, v) :: tail)
      | none => none
  | _ => none

/-- Embeds `json.Unmarshal` into `map[string]string` at the top level:
objects of strings unmarshal, JSON null leaves the map empty (Go leaves
the nil map untouched and returns no error), anything else is an
unmarshal error. -/
def unmarshalMapSS : Json → Option (List (String × String))
  | Json.obj fs => asStringPairs fs
  | Json.null => some []
  | _ => none

/-- Go map read with the zero-value default: `resp[k]` is the value of the
last binding of `k` (later duplicate JSON keys overwrite earlier ones) or
the empty string when absent. -/
def mapGetD (l : List (String × String)) (k : String) : String :=
  match l.reverse.find? (fun p => p.1 == k) with
  | some p => p.2
  | none => ""

/-- Environment of one session run (`run`, src/main.go:123-168):
`dialOk` is whether `websocket.DefaultDialer.Dial` succeeded, `authWriteOk`
whether `conn.WriteJSON(auth)` succeeded, `readMsg` the result of
`conn.ReadMessage()` (`none` = read error, `some none` = bytes that do not
parse as JSON, `some (some j)` = bytes parsing to `j`), `sendOk k` whether
`conn.WriteJSON(metrics)` of send cycle `k` succeeded, and `sys k` the
sub-source state sampled on cycle `k`. -/
structure WsEnv where
  dialOk : Bool
  authWriteOk : Bool
  readMsg : Option (Option Json)
  sendOk : Nat → Bool
  sys : Nat → SysEnv

/-- Embeds the handshake phase of `run` (src/main.go:127-149): dial, send
the auth message, read the acknowledgment, unmarshal it into a
string-to-string map and require `status == "ok"`; `none` means the
handshake succeeded and the send loop is entered. -/
def handshakeError (env : WsEnv) : Option RunError :=
  if !env.dialOk then some RunError.dialErr
  else if !env.authWriteOk then some RunError.authSendErr
  else
    match env.readMsg with
    | none => some RunError.authRespErr
    | some none => some RunError.authParseErr
    | some (some j) =>
        match unmarshalMapSS j with
        | none => some RunError.authParseErr
        | some resp =>
            if mapGetD resp "status" = "ok" then none
            else some (RunError.authFailed (mapGetD resp "status"))

/-- The handshake-acknowledgment failure modes of claim C2, as a predicate
on the environment: the read fails, the bytes do not parse, the JSON does
not unmarshal into a string-to-string map, or the `status` field differs
from "ok". -/
def ackFails (env : WsEnv) : Bool :=
  match env.readMsg with
  | none => true
  | some none => true
  | some (some j) =>
      match unmarshalMapSS j with
      | none => true
      | some resp => mapGetD resp "status" != "ok"

/-- Whether send cycle `k` is reached inside the session: the handshake
must have succeeded and every earlier cycle must have sent successfully
(the first `WriteJSON` failure makes `run` return, src/main.go:157-165). -/
def attempted (env : WsEnv) (k : Nat) : Bool :=
  (handshakeError env).isNone && (List.range k).all (fun j => env.sendOk j)

/-- The sample collected on cycle `k` (`collectMetrics()` inside
`sendMetrics`, src/main.go:171). -/
def sampleAt (env : WsEnv) (k : Nat) : Metrics :=
  collectMetrics (env.sys k)

/-- Observable events of a session, in program order. -/
inductive Event where
  | menuUpdate (m : Metrics) : Event
  | wsSend (m : Metrics) (ok : Bool) : Event
  | sessionEnd (e : RunError) : Event
deriving DecidableEq, Repr

/-- Embeds one `sendMetrics(conn)` call (src/main.go:170-179): collect the
metrics, push them to the tray menu, then `WriteJSON` them; returns the
events in program order and the error `run` propagates when the write
fails. -/
def sendMetricsEvents (env : WsEnv) (k : Nat) : List Event × Option RunError :=
  let m := sampleAt env k
  if env.sendOk k then ([Event.menuUpdate m, Event.wsSend m true], none)
  else ([Event.menuUpdate m, Event.wsSend m false], some (RunError.sendErr k))

/-- Events of send cycle `k` of the session: nothing when the cycle is
never reached; otherwise the `sendMetrics` events, followed by the session
ending with the propagated error when the write failed. -/
def cycleEvents (env : WsEnv) (k : Nat) : List Event :=
  if attempted env k then
    match sendMetricsEvents env k with
    | (evs, none) => evs
    | (evs, some e) => evs ++ [Event.sessionEnd e]
  else []

/-- Seconds after the handshake at which send cycle `k` starts: the first
send happens immediately (src/main.go:157), the following ones on the
30-second ticker (src/main.go:154, 161). -/
def cycleTime (k : Nat) : Nat :=
  30 * k

/-- The samples handed to `WriteJSON` during the first `n` cycles. -/
def writeCalls (env : WsEnv) (n : Nat) : List Metrics :=
  ((List.range n).filter (fun k => attempted env k)).map (sampleAt env)

/-- The samples successfully transmitted during the first `n` cycles. -/
def transmitted (env : WsEnv) (n : Nat) : List Metrics :=
  ((List.range n).filter (fun k => attempted env k && env.sendOk k)).map (sampleAt env)

/-- The `wsSend` events among a session event list. -/
def sendEventsOf (l : List Event) : List Event :=
  l.filter (fun e => match e with | Event.wsSend _ _ => true | _ => false)

/-- Supervisor-level events of the reconnect loop in `onReady`
(src/main.go:83-92). -/
inductive SupEvent where
  | runAttempt (k : Nat) : SupEvent
  | status (s : String) : SupEvent
  | sleep (secs : Nat) : SupEvent
deriving DecidableEq, Repr

/-- Embeds one iteration of the supervisor loop (src/main.go:84-91): run
session attempt `k`; when it returned an error, log it and set the tray
status to Disconnected; then sleep 5 seconds and loop. -/
def superviseIter (e : Option RunError) (k : Nat) : List SupEvent :=
  SupEvent.runAttempt k ::
    ((match e with
      | some _ => [SupEvent.status "Disconnected"]
      | none => []) ++ [SupEvent.sleep 5])

/-- Events of the first `n` iterations of the supervisor loop, where
`errs k` is the error returned by session attempt `k` (the loop itself
never exits: it is defined for every `n`). -/
def superviseTrace (errs : Nat → Option RunError) : Nat → List SupEvent
  | 0 => []
  | n + 1 => superviseTrace errs n ++ superviseIter (errs n) n

/-- Embeds `json.Marshal` of `Metrics` (struct tags at src/main.go:26-32):
an object with the five tagged fields in struct order; no field carries
omitempty, so every field is always emitted. -/
def Metrics.toJson (m : Metrics) : Json :=
  Json.obj
    [("cpu", Json.num m.CPU),
     ("ram", Json.num m.RAM),
     ("ramUsedMb", Json.num (m.RAMUsedMB : Rat)),
     ("ramTotalMb", Json.num (m.RAMTotalMB : Rat)),
     ("gpu", Json.num m.GPU)]

/-- The keys of a JSON object (empty for non-objects). -/
def jsonKeys : Json → List String
  | Json.obj fs => fs.map Prod.fst
  | _ => []

/-- Lookup of a key in a JSON object field list, later bindings winning,
as Go duplicate-key decoding does. -/
def jsonLookup (fs : List (String × Json)) (k : String) : Option Json :=
  match fs.reverse.find? (fun p => p.1 == k) with
  | some p => some p.2
  | none => none

/-- Embeds Go decoding of a JSON value into a float64 field: only a
number is accepted. -/
def asFloat? : Json → Option Rat
  | Json.num q => some q
  | _ => none

/-- Embeds Go decoding of a JSON value into a uint64 field: only a number
that is a non-negative integer is accepted. -/
def asUInt? : Json → Option Nat
  | Json.num q => if q.den = 1 ∧ 0 ≤ q.num then some q.num.toNat else none
  | _ => none

/-- Embeds `json.Unmarshal` into a `Metrics` value: the input must be an
object (or JSON null, which leaves the zero value), each tagged key is
decoded into its field when present (absent keys keep the zero value, a
type mismatch is an unmarshal error), unknown keys are ignored. -/
def Metrics.fromJson? : Json → Option Metrics
  | Json.obj fs => do
      let c ← match jsonLookup fs "cpu" with
        | none => some (0 : Rat)
        | some v => asFloat? v
      let r ← match jsonLookup fs "ram" with
        | none => some (0 : Rat)
        | some v => asFloat? v
      let u ← match jsonLookup fs "ramUsedMb" with
        | none => some 0
        | some v => asUInt? v
      let t ← match jsonLookup fs "ramTotalMb" with
        | none => some 0
        | some v => asUInt? v
      let g ← match jsonLookup fs "gpu" with
        | none => some (0 : Rat)
        | some v => asFloat? v
      some { CPU := c, RAM := r, RAMUsedMB := u, RAMTotalMB := t, GPU := g }
  | Json.null => some { CPU := 0, RAM := 0, RAMUsedMB := 0, RAMTotalMB := 0, GPU := 0 }
  | _ => none

/-- Modelled from the spec: the request/response transport variant is not
part of src/main.go (which contains only the websocket variant); spec
section 6 describes it as a POST to the configured base URL with a fixed
suffix appended, an Authorization bearer header, a JSON content type and
a JSON-encoded Sample body.  The suffix is a fixed constant of the real
program, left abstract here. -/
structure HttpConfig where
  baseUrl : String
  secret : String

/-- Modelled from the spec: the request one reporting cycle of the
request/response variant issues. -/
structure HttpRequest where
  method : String
  url : String
  headers : List (String × String)
  body : Json

/-- Modelled from the spec: build the reporting request of one
request/response cycle for sample `m`. -/
def httpReportRequest (suffix : String) (cfg : HttpConfig) (m : Metrics) : HttpRequest :=
  { method := "POST"
    url := cfg.baseUrl ++ suffix
    headers := [("Authorization", "Bearer " ++ cfg.secret),
                ("Content-Type", "application/json")]
    body := Metrics.toJson m }

/-- Modelled from the spec: whether an HTTP response status counts as a
successful reporting cycle — exactly status 200. -/
def httpSuccess (status : Nat) : Bool :=
  status == 200

/-- Concrete sub-source state used by witnesses: the spec's example sample
values (42.5% CPU, 67.3% RAM, 4096 of 8192 MB, 15% GPU). -/
def sysEnvEx : SysEnv :=
  { cpuRes := some [(42.5 : Rat)]
    memRes := some { usedPercent := (67.3 : Rat), used := 4096 * 1024 * 1024, total := 8192 * 1024 * 1024 }
    gpu := { duration := 0, runErr := false, parsed := some 15 } }

/-- Concrete sub-source state used by witnesses: the GPU query command
fails. -/
def sysEnvGpuFail : SysEnv :=
  { cpuRes := some [(42.5 : Rat)]
    memRes := some { usedPercent := (67.3 : Rat), used := 4096 * 1024 * 1024, total := 8192 * 1024 * 1024 }
    gpu := { duration := 0, runErr := true, parsed := none } }

/-- Concrete session environment used by witnesses: everything succeeds,
the collector acknowledges with status ok. -/
def wsEnvOk : WsEnv :=
  { dialOk := true
    authWriteOk := true
    readMsg := some (some (Json.obj [("status", Json.str "ok")]))
    sendOk := fun _ => true
    sys := fun _ => sysEnvEx }

/-- Concrete session environment used by witnesses: the collector answers
the handshake with status fail. -/
def wsEnvAckFail : WsEnv :=
  { dialOk := true
    authWriteOk := true
    readMsg := some (some (Json.obj [("status", Json.str "fail")]))
    sendOk := fun _ => true
    sys := fun _ => sysEnvEx }

/-- Concrete session environment used by witnesses: the handshake
succeeds, send cycle 0 succeeds, send cycle 1 is the first failure. -/
def wsEnvSendFail1 : WsEnv :=
  { dialOk := true
    authWriteOk := true
    readMsg := some (some (Json.obj [("status", Json.str "ok")]))
    sendOk := fun k => k == 0
    sys := fun _ => sysEnvEx }

/-- Error assignment used by witnesses: every session attempt returns a
dial error. -/
def errsDial : Nat → Option RunError :=
  fun _ => some RunError.dialErr

/-- Helper: `collectMetrics` decomposes per field, each field depending
only on its own sub-source. -/
theorem collectMetrics_fields (env : SysEnv) :
    collectMetrics env =
      { CPU := cpuOf env.cpuRes
        RAM := ramOf env.memRes
        RAMUsedMB := ramUsedOf env.memRes
        RAMTotalMB := ramTotalOf env.memRes
        GPU := gpuOf env.gpu } := by
  unfold collectMetrics cpuOf ramOf ramUsedOf ramTotalOf gpuOf
  rcases env with ⟨cpuRes, memRes, gpu⟩
  rcases hg : getNvidiaGPU gpu with ⟨v, b⟩
  rcases cpuRes with _ | ⟨_ | ⟨x, l⟩⟩ <;> rcases memRes with _ | s <;>
    rcases b with _ | _ <;> simp [hg]

/-- Claim C6: every invocation of the sampling operation absorbs CPU,
memory and GPU sub-source failures — the result is always a full
`Metrics` value whose every field is a function of its own sub-source
only, failed sources contributing their sentinel (zero for CPU/RAM, -1
for GPU) while all other fields are still populated. -/
theorem c6_subsource_failures_absorbed (env : SysEnv) :
    collectMetrics env =
        { CPU := cpuOf env.cpuRes
          RAM := ramOf env.memRes
          RAMUsedMB := ramUsedOf env.memRes
          RAMTotalMB := ramTotalOf env.memRes
          GPU := gpuOf env.gpu } ∧
      cpuOf none = 0 ∧ ramOf none = 0 ∧ ramUsedOf none = 0 ∧ ramTotalOf none = 0 ∧
      (∀ d : Nat, ∀ p : Option Rat,
        gpuOf { duration := d, runErr := true, parsed := p } = -1) := by
  refine ⟨collectMetrics_fields env, rfl, rfl, rfl, rfl, ?_⟩
  intro d p
  rfl

/-- Claim C7: a sample is always fully constructed — its serialization
always carries all five fields — and a failed GPU query only sets the
GPU field to the -1 sentinel, the CPU and RAM fields still being the
values their own sub-sources produced. -/
theorem c7_gpu_sentinel_keeps_fields (env : SysEnv)
    (h : (getNvidiaGPU env.gpu).2 = false) :
    (collectMetrics env).GPU = -1 ∧
      (collectMetrics env).CPU = cpuOf env.cpuRes ∧
      (collectMetrics env).RAM = ramOf env.memRes ∧
      (collectMetrics env).RAMUsedMB = ramUsedOf env.memRes ∧
      (collectMetrics env).RAMTotalMB = ramTotalOf env.memRes ∧
      jsonKeys (Metrics.toJson (collectMetrics env)) =
        ["cpu", "ram", "ramUsedMb", "ramTotalMb", "gpu"] := by
  have hf := collectMetrics_fields env
  have hgpu : gpuOf env.gpu = -1 := by
    unfold gpuOf
    rcases hg : getNvidiaGPU env.gpu with ⟨v, b⟩
    rw [hg] at h
    simp at h
    subst h
    rfl
  rw [hf]
  exact ⟨hgpu, rfl, rfl, rfl, rfl, rfl⟩

/-- Witness for C7 at a concrete environment where the nvidia-smi run
fails. -/
theorem c7_gpu_sentinel_keeps_fields_witness :
    (collectMetrics sysEnvGpuFail).GPU = -1 ∧
      (collectMetrics sysEnvGpuFail).CPU = cpuOf sysEnvGpuFail.cpuRes ∧
      (collectMetrics sysEnvGpuFail).RAM = ramOf sysEnvGpuFail.memRes ∧
      (collectMetrics sysEnvGpuFail).RAMUsedMB = ramUsedOf sysEnvGpuFail.memRes ∧
      (collectMetrics sysEnvGpuFail).RAMTotalMB = ramTotalOf sysEnvGpuFail.memRes ∧
      jsonKeys (Metrics.toJson (collectMetrics sysEnvGpuFail)) =
        ["cpu", "ram", "ramUsedMb", "ramTotalMb", "gpu"] :=
  c7_gpu_sentinel_keeps_fields sysEnvGpuFail rfl

/-- Claim C8 counterexample: the sampling time is not bounded — for any
candidate bound there is an environment (the nvidia-smi subprocess
running longer than the bound) on which sampling blocks longer, because
`cmd.Run()` is given no timeout. -/
theorem c8_counterexample_unbounded : ¬ samplingBounded := by
  rintro ⟨B, hB⟩
  have h := hB { cpuRes := none, memRes := none,
                 gpu := { duration := B + 1, runErr := false, parsed := none } }
  simp [collectTime, getNvidiaGPUTime] at h

/-- Claim C8 as amended: the sampling operation completes exactly when
its sub-source queries do — its blocking time is the external GPU
command's full duration, with no timeout applied — so the time is not
bounded when the command is slow. -/
theorem c8_amended_no_timeout :
    (∀ env : SysEnv, collectTime env = env.gpu.duration) ∧
      ∀ B : Nat, ∃ env : SysEnv, B < collectTime env := by
  refine ⟨fun env => rfl, fun B => ?_⟩
  refine ⟨{ cpuRes := none, memRes := none,
            gpu := { duration := B + 1, runErr := false, parsed := none } }, ?_⟩
  simp [collectTime, getNvidiaGPUTime]

/-- Claim C1: after any terminal error of session attempt `n`, the
supervisor sets the status, sleeps exactly 5 seconds, and attempt `n+1`
unconditionally happens (the trace is defined for every iteration count,
so no attempt is the last one and no error is fatal), with identical
handling whatever the error value is. -/
theorem c1_supervisor_retries (errs : Nat → Option RunError) (n : Nat) (e : RunError)
    (h : errs n = some e) :
    superviseTrace errs (n + 1) =
        superviseTrace errs n ++
          [SupEvent.runAttempt n, SupEvent.status "Disconnected", SupEvent.sleep 5] ∧
      SupEvent.runAttempt (n + 1) ∈ superviseTrace errs (n + 2) ∧
      ∀ e' : RunError, superviseIter (errs n) n = superviseIter (some e') n := by
  refine ⟨?_, ?_, ?_⟩
  · simp [superviseTrace, superviseIter, h]
  · show SupEvent.runAttempt (n + 1) ∈ superviseTrace errs (n + 1 + 1)
    simp [superviseTrace, superviseIter]
  · intro e'
    rw [h]
    rfl

/-- Witness for C1 with every attempt failing with a dial error. -/
theorem c1_supervisor_retries_witness :
    superviseTrace errsDial 1 =
        superviseTrace errsDial 0 ++
          [SupEvent.runAttempt 0, SupEvent.status "Disconnected", SupEvent.sleep 5] ∧
      SupEvent.runAttempt 1 ∈ superviseTrace errsDial 2 ∧
      superviseIter (errsDial 0) 0 = superviseIter (some (RunError.sendErr 7)) 0 :=
  ⟨(c1_supervisor_retries errsDial 0 RunError.dialErr rfl).1,
   (c1_supervisor_retries errsDial 0 RunError.dialErr rfl).2.1,
   (c1_supervisor_retries errsDial 0 RunError.dialErr rfl).2.2 (RunError.sendErr 7)⟩

/-- Helper: when the dial and the auth write succeed but the handshake
acknowledgment fails (read error, unparseable bytes, non string-to-string
JSON, or a status other than ok), `run` returns an acknowledgment-side
terminal error. -/
theorem handshakeError_of_ackFails (env : WsEnv)
    (hd : env.dialOk = true) (ha : env.authWriteOk = true)
    (hf : ackFails env = true) :
    (handshakeError env).isSome = true ∧
      handshakeError env ≠ some RunError.dialErr ∧
      handshakeError env ≠ some RunError.authSendErr := by
  rcases hm : env.readMsg with _ | ⟨_ | j⟩
  · simp [handshakeError, hd, ha, hm]
  · simp [handshakeError, hd, ha, hm]
  · rcases hu : unmarshalMapSS j with _ | resp
    · simp [handshakeError, hd, ha, hm, hu]
    · have hst : ¬ mapGetD resp "status" = "ok" := by
        unfold ackFails at hf
        rw [hm] at hf
        simp only [hu, bne_iff_ne, ne_eq, decide_eq_true_eq] at hf
        exact hf
      simp [handshakeError, hd, ha, hm, hu, hst]

/-- Helper: a handshake failure prevents every send cycle. -/
theorem attempted_false_of_handshake (env : WsEnv)
    (h : (handshakeError env).isSome = true) (k : Nat) :
    attempted env k = false := by
  unfold attempted
  rcases hh : handshakeError env with _ | e
  · rw [hh] at h
    simp at h
  · simp

/-- Claim C2: when the dial and the auth send succeed but the handshake
acknowledgment fails to read, fails to parse as a string-to-string map,
or carries a status other than ok, the session returns a terminal error
(one from the acknowledgment phase, not a dial or auth-send error)
before entering the send loop: no send cycle is reached, no `WriteJSON`
of metrics happens and zero samples are transmitted. -/
theorem c2_ack_failure_no_samples (env : WsEnv) (n : Nat)
    (hd : env.dialOk = true) (ha : env.authWriteOk = true)
    (hf : ackFails env = true) :
    (handshakeError env).isSome = true ∧
      handshakeError env ≠ some RunError.dialErr ∧
      handshakeError env ≠ some RunError.authSendErr ∧
      writeCalls env n = [] ∧ transmitted env n = [] := by
  obtain ⟨hs, hne1, hne2⟩ := handshakeError_of_ackFails env hd ha hf
  have hatt := attempted_false_of_handshake env hs
  refine ⟨hs, hne1, hne2, ?_, ?_⟩
  · unfold writeCalls
    have : (List.range n).filter (fun k => attempted env k) = [] := by
      apply List.filter_eq_nil_iff.mpr
      intro k _
      simp [hatt k]
    rw [this]
    rfl
  · unfold transmitted
    have : (List.range n).filter (fun k => attempted env k && env.sendOk k) = [] := by
      apply List.filter_eq_nil_iff.mpr
      intro k _
      simp [hatt k]
    rw [this]
    rfl

/-- Witness for C2 at the spec's example: an acknowledgment of
status fail, checked over the first 3 cycles. -/
theorem c2_ack_failure_no_samples_witness :
    (handshakeError wsEnvAckFail).isSome = true ∧
      handshakeError wsEnvAckFail ≠ some RunError.dialErr ∧
      handshakeError wsEnvAckFail ≠ some RunError.authSendErr ∧
      writeCalls wsEnvAckFail 3 = [] ∧ transmitted wsEnvAckFail 3 = [] :=
  c2_ack_failure_no_samples wsEnvAckFail 3 rfl rfl (by decide)

/-- Claim C3: after a successful handshake the session sends immediately
(cycle 0 is reached), the cycles run on the fixed 30-second cadence, and
the first `WriteJSON` failure at cycle `f` ends the session with a
send-failure terminal error: exactly the cycles up to `f` are reached and
nothing is retried afterwards inside the session. -/
theorem c3_send_loop_terminates_on_first_failure (env : WsEnv) (f : Nat)
    (hh : handshakeError env = none)
    (hok : ∀ j, j < f → env.sendOk j = true)
    (hf : env.sendOk f = false) :
    attempted env 0 = true ∧
      (∀ k, attempted env k = true ↔ k ≤ f) ∧
      cycleEvents env f =
        [Event.menuUpdate (sampleAt env f), Event.wsSend (sampleAt env f) false,
         Event.sessionEnd (RunError.sendErr f)] ∧
      cycleTime 0 = 0 ∧ (∀ k, cycleTime (k + 1) = cycleTime k + 30) := by
  have hatt : ∀ k, attempted env k = true ↔ k ≤ f := by
    intro k
    unfold attempted
    rw [hh]
    simp only [Option.isNone_none, Bool.true_and, List.all_eq_true, List.mem_range]
    constructor
    · intro hall
      by_contra hgt
      push_neg at hgt
      have hbad := hall f hgt
      rw [hf] at hbad
      exact absurd hbad (by simp)
    · intro hk j hj
      exact hok j (lt_of_lt_of_le hj hk)
  refine ⟨(hatt 0).mpr (Nat.zero_le f), hatt, ?_, rfl, ?_⟩
  · simp [cycleEvents, sendMetricsEvents, (hatt f).mpr le_rfl, hf]
  · intro k
    unfold cycleTime
    ring

/-- Witness for C3: handshake ok, cycle 0 sends, cycle 1 is the first
failure. -/
theorem c3_send_loop_terminates_on_first_failure_witness :
    attempted wsEnvSendFail1 0 = true ∧
      (attempted wsEnvSendFail1 5 = true ↔ 5 ≤ 1) ∧
      cycleEvents wsEnvSendFail1 1 =
        [Event.menuUpdate (sampleAt wsEnvSendFail1 1),
         Event.wsSend (sampleAt wsEnvSendFail1 1) false,
         Event.sessionEnd (RunError.sendErr 1)] ∧
      cycleTime 0 = 0 ∧ cycleTime (2 + 1) = cycleTime 2 + 30 :=
  ⟨(c3_send_loop_terminates_on_first_failure wsEnvSendFail1 1 rfl (by decide) rfl).1,
   (c3_send_loop_terminates_on_first_failure wsEnvSendFail1 1 rfl (by decide) rfl).2.1 5,
   (c3_send_loop_terminates_on_first_failure wsEnvSendFail1 1 rfl (by decide) rfl).2.2.1,
   (c3_send_loop_terminates_on_first_failure wsEnvSendFail1 1 rfl (by decide) rfl).2.2.2.1,
   (c3_send_loop_terminates_on_first_failure wsEnvSendFail1 1 rfl (by decide) rfl).2.2.2.2 2⟩

/-- Claim C4: over `N` successful send cycles the session transmits
exactly `N` samples, namely the samples collected on cycles 0 to N-1 in
collection order (no duplication, no reordering), and each cycle carries
exactly one send of exactly its own sample (no batching, one at a
time). -/
theorem c4_ordered_exact_delivery (env : WsEnv) (N : Nat)
    (hh : handshakeError env = none)
    (hok : ∀ j, j < N → env.sendOk j = true) :
    transmitted env N = (List.range N).map (sampleAt env) ∧
      (transmitted env N).length = N ∧
      ∀ k, k < N → sendEventsOf (cycleEvents env k) = [Event.wsSend (sampleAt env k) true] := by
  have hatt : ∀ k, k < N → attempted env k = true := by
    intro k hk
    unfold attempted
    rw [hh]
    simp only [Option.isNone_none, Bool.true_and, List.all_eq_true, List.mem_range]
    intro j hj
    exact hok j (hj.trans hk)
  have hfilter :
      (List.range N).filter (fun k => attempted env k && env.sendOk k) = List.range N := by
    apply List.filter_eq_self.mpr
    intro k hk
    rw [List.mem_range] at hk
    simp [hatt k hk, hok k hk]
  refine ⟨?_, ?_, ?_⟩
  · unfold transmitted
    rw [hfilter]
  · unfold transmitted
    rw [hfilter, List.length_map, List.length_range]
  · intro k hk
    simp [cycleEvents, hatt k hk, sendMetricsEvents, hok k hk, sendEventsOf]

/-- Witness for C4 over two successful cycles of the all-ok
environment. -/
theorem c4_ordered_exact_delivery_witness :
    transmitted wsEnvOk 2 = (List.range 2).map (sampleAt wsEnvOk) ∧
      (transmitted wsEnvOk 2).length = 2 ∧
      sendEventsOf (cycleEvents wsEnvOk 1) = [Event.wsSend (sampleAt wsEnvOk 1) true] :=
  ⟨(c4_ordered_exact_delivery wsEnvOk 2 rfl (by decide)).1,
   (c4_ordered_exact_delivery wsEnvOk 2 rfl (by decide)).2.1,
   (c4_ordered_exact_delivery wsEnvOk 2 rfl (by decide)).2.2 1 (by decide)⟩

/-- Claim C10: in every reached send cycle the freshly collected sample
is pushed to the tray menu first — the cycle's first event is the menu
update — so even when the `WriteJSON` of that cycle fails and ends the
session, the displayed metrics were already updated with that sample. -/
theorem c10_display_updated_before_send (env : WsEnv) (k : Nat)
    (h : attempted env k = true) :
    (cycleEvents env k).head? = some (Event.menuUpdate (sampleAt env k)) ∧
      (env.sendOk k = false →
        cycleEvents env k =
          [Event.menuUpdate (sampleAt env k), Event.wsSend (sampleAt env k) false,
           Event.sessionEnd (RunError.sendErr k)]) := by
  constructor
  · rcases hs : env.sendOk k with _ | _ <;>
      simp [cycleEvents, h, sendMetricsEvents, hs]
  · intro hs
    simp [cycleEvents, h, sendMetricsEvents, hs]

/-- Witness for C10 at the failing cycle 1 of the
one-successful-send environment. -/
theorem c10_display_updated_before_send_witness :
    (cycleEvents wsEnvSendFail1 1).head? =
        some (Event.menuUpdate (sampleAt wsEnvSendFail1 1)) ∧
      cycleEvents wsEnvSendFail1 1 =
        [Event.menuUpdate (sampleAt wsEnvSendFail1 1),
         Event.wsSend (sampleAt wsEnvSendFail1 1) false,
         Event.sessionEnd (RunError.sendErr 1)] :=
  ⟨(c10_display_updated_before_send wsEnvSendFail1 1 (by decide)).1,
   (c10_display_updated_before_send wsEnvSendFail1 1 (by decide)).2 rfl⟩

/-- Claim C5: both transport variants share the session contract; the
request/response variant (modelled from the spec, as src/main.go contains
only the websocket variant) POSTs to the configured base URL with the
fixed suffix appended, carries the bearer Authorization header and the
JSON content type, its body is the JSON-encoded sample, and exactly HTTP
status 200 counts as success. -/
theorem c5_http_variant_shape (suffix : String) (cfg : HttpConfig) (m : Metrics) (s : Nat) :
    (httpReportRequest suffix cfg m).method = "POST" ∧
      (httpReportRequest suffix cfg m).url = cfg.baseUrl ++ suffix ∧
      ("Authorization", "Bearer " ++ cfg.secret) ∈ (httpReportRequest suffix cfg m).headers ∧
      ("Content-Type", "application/json") ∈ (httpReportRequest suffix cfg m).headers ∧
      (httpReportRequest suffix cfg m).body = Metrics.toJson m ∧
      (httpSuccess s = true ↔ s = 200) := by
  refine ⟨rfl, rfl, ?_, ?_, rfl, ?_⟩ <;> simp [httpReportRequest, httpSuccess]

/-- Claim C9: serializing any sample to JSON and parsing it back yields a
sample equal field for field to the original. -/
theorem c9_sample_roundtrip (m : Metrics) :
    Metrics.fromJson? (Metrics.toJson m) = some m := by
  obtain ⟨c, r, u, t, g⟩ := m
  simp [Metrics.toJson, Metrics.fromJson?, jsonLookup, asFloat?, asUInt?,
    List.find?]
